import Mathlib

/-!
Verification of the card filter/sort/tier derivation pipeline of
`src/App.js` (mtg-limited-helper).

The source file contains two near-identical snapshots of the React
component; the first one (lines 1-1854) is the primary snapshot, whose
`getFilteredCards` / `getSortedCards` / `getTieredCards` match the
specification's §4 description (Infinity sentinel for missing mana cost,
-1 sentinel for missing rating, default tie-break chain).  All
definitions below are shallow embeddings of that snapshot.

Modelling conventions:
* JavaScript numbers carried by cards (`rating`) are modelled as ℚ;
  `manaCost` as ℤ.  Absent (`undefined`) and `null` fields are both
  modelled as `Option.none`, matching the primary snapshot which always
  tests `!== undefined && !== null` together.
* The `Infinity` sentinel for a missing mana cost is modelled by
  comparing `Option ℤ` with `none` as the largest element (`cmpMana`):
  this has exactly the sign behaviour of the source's
  `manaA - manaB` / `manaB - manaA` with `Infinity` substituted.
* A JavaScript comparator is used by `Array.prototype.sort` only through
  the sign of its result, so comparators are embedded as
  `Card → Card → Ordering`; `Array.prototype.sort` itself (a stable sort
  by the comparator) is embedded as a stable insertion sort `sortWith`.
* `String.prototype.localeCompare` is modelled as lexicographic string
  comparison.
* The card's `color` field can hold a list, a legacy scalar string, or
  be absent (`Array.isArray(card.color) ? card.color : [card.color]` in
  the source); `ColorField` keeps the three cases apart.
-/

inductive ColorField where
  | undef : ColorField
  | scalar : String → ColorField
  | list : List String → ColorField
deriving DecidableEq

/-- The fields of a card document that the derivation pipeline reads.
Fields the pipeline never touches (image URLs, timestamps,
`isDoubleFaced`) are omitted. -/
structure Card where
  id : String
  name : Option String
  color : ColorField
  rarity : String
  type : String
  rating : Option ℚ
  manaCost : Option ℤ
  isBomb : Bool
  customAttributeIds : Option (List String)
  comment : String
  setId : Option String
deriving DecidableEq

/-- The filter criteria object (`filters` state in `App.js`). -/
structure Filters where
  colors : List String
  rarities : List String
  types : List String
  isBomb : Bool
  customAttributeIds : List String
  searchTerm : String
deriving DecidableEq

/-- The multicolor token `'多色'` of `FILTER_COLORS`. -/
def multicolorToken : String := "多色"

/-- Evaluation of `Array.isArray(card.color) ? card.color :
[card.color]`: the color
list the filter works on; a legacy scalar becomes a one-element list and
an absent field becomes `[undefined]`. -/
def cardColorsOf : ColorField → List (Option String)
  | ColorField.undef => [none]
  | ColorField.scalar s => [some s]
  | ColorField.list cs => cs.map some

/-- The color gate of `getFilteredCards` (lines 619-633): `colorMatch`
is set if the multicolor filter is on and the card has more than one
color, or if some card color is among the specific (non-multicolor)
filter colors. -/
def colorMatch (filters : Filters) (card : Card) : Bool :=
  let cardColors := cardColorsOf card.color
  let hasMulticolorFilter := filters.colors.contains multicolorToken
  let specificColorFilters := filters.colors.filter (fun c => c ≠ multicolorToken)
  (hasMulticolorFilter && decide (cardColors.length > 1)) ||
    (decide (specificColorFilters.length > 0) &&
      cardColors.any (fun c =>
        match c with
        | some s => specificColorFilters.contains s
        | none => false))

/-- Whether the first character list is a prefix of the second. -/
def prefixOfList : List Char → List Char → Bool
  | [], _ => true
  | _ :: _, [] => false
  | a :: as, b :: bs => a = b && prefixOfList as bs

/-- Whether the first character list occurs contiguously in the second. -/
def infixOfList (needle : List Char) : List Char → Bool
  | [] => decide (needle = [])
  | c :: rest => prefixOfList needle (c :: rest) || infixOfList needle rest

/-- Case-insensitive `String.prototype.includes` used by the search-term
criterion; substring containment on the lower-cased character lists. -/
def jsIncludesInsensitive (hay needle : String) : Bool :=
  infixOfList needle.toLower.toList hay.toLower.toList

/-- The filter predicate of `getFilteredCards` (lines 615-651): the body
of `cards.filter(card => ...)` as a function of the active set id, the
filter criteria and the card. -/
def matchesFilter (currentSetId : Option String) (filters : Filters) (card : Card) : Bool :=
  if currentSetId.isSome && decide (card.setId ≠ currentSetId) then false
  else if decide (filters.colors.length > 0) && !colorMatch filters card then false
  else if decide (filters.rarities.length > 0) && !filters.rarities.contains card.rarity then false
  else if decide (filters.types.length > 0) && !filters.types.contains card.type then false
  else if filters.isBomb && !card.isBomb then false
  else if decide (filters.customAttributeIds.length > 0) &&
      !(card.customAttributeIds.isSome &&
        filters.customAttributeIds.all (fun i =>
          (card.customAttributeIds.getD []).contains i)) then false
  else if decide (filters.searchTerm ≠ "") &&
      !(jsIncludesInsensitive (card.name.getD ("")) filters.searchTerm &&
          decide (card.name ≠ none) ||
        jsIncludesInsensitive card.comment filters.searchTerm &&
          decide (card.comment ≠ "")) then false
  else true

/-- Embedding of `getFilteredCards` (lines 615-651). -/
def getFilteredCards (currentSetId : Option String) (filters : Filters)
    (cards : List Card) : List Card :=
  cards.filter (matchesFilter currentSetId filters)

/-- Sign of `x - y` for totally ordered values: all the source's numeric
comparator returns are consumed only through their sign. -/
def cmpVal {α : Type} [LinearOrder α] (x y : α) : Ordering :=
  if x < y then Ordering.lt else if x = y then Ordering.eq else Ordering.gt

/-- Embedding of `manaA = a.manaCost !== undefined && a.manaCost !==
null ? a.manaCost
: Infinity` — a missing mana cost becomes the `Infinity` sentinel,
modelled as `none`. -/
def manaKey (card : Card) : Option ℤ := card.manaCost

/-- Sign of `manaA - manaB` where `none` stands for `Infinity`. -/
def cmpMana : Option ℤ → Option ℤ → Ordering
  | none, none => Ordering.eq
  | none, some _ => Ordering.gt
  | some _, none => Ordering.lt
  | some x, some y => cmpVal x y

/-- Embedding of `ratingA = a.rating !== undefined && a.rating !== null
? a.rating :
-1` (line 658). -/
def ratingKey (card : Card) : ℚ := card.rating.getD (-1)

/-- Embedding of `(a.color || []).length` (line 660): an absent field gives 0, a
legacy scalar string gives its string length, a list its length. -/
def colorsLength (card : Card) : Nat :=
  match card.color with
  | ColorField.undef => 0
  | ColorField.scalar s => s.length
  | ColorField.list cs => cs.length

/-- Embedding of `a.name || ''` (line 662). -/
def nameKey (card : Card) : String := card.name.getD ("")

/-- The `defaultSort` closure (lines 665-669): mana cost ascending
(missing last), then rating descending, then color count ascending. -/
def defaultSort (a b : Card) : Ordering :=
  if manaKey a ≠ manaKey b then cmpMana (manaKey a) (manaKey b)
  else if ratingKey b ≠ ratingKey a then cmpVal (ratingKey b) (ratingKey a)
  else cmpVal (colorsLength a) (colorsLength b)

/-- The values the `sortBy` state can take: exactly the seven option
values of the sort select element, `'default'` being the initial state;
the switch's `default:` arm coincides with the `'default'` case. -/
inductive SortKey where
  | default : SortKey
  | ratingDesc : SortKey
  | ratingAsc : SortKey
  | manaCostAsc : SortKey
  | manaCostDesc : SortKey
  | nameAsc : SortKey
  | nameDesc : SortKey
deriving DecidableEq

/-- The comparator of `getSortedCards` (lines 655-696): a switch on the
`sortBy` value, each named mode falling back to `defaultSort` when its
primary key ties, and the default case returning `defaultSort`. -/
def compareCards (sortBy : SortKey) (a b : Card) : Ordering :=
  match sortBy with
  | SortKey.ratingDesc =>
    if ratingKey b ≠ ratingKey a then cmpVal (ratingKey b) (ratingKey a)
    else defaultSort a b
  | SortKey.ratingAsc =>
    if ratingKey a ≠ ratingKey b then cmpVal (ratingKey a) (ratingKey b)
    else defaultSort a b
  | SortKey.manaCostAsc =>
    if manaKey a ≠ manaKey b then cmpMana (manaKey a) (manaKey b)
    else defaultSort a b
  | SortKey.manaCostDesc =>
    if manaKey b ≠ manaKey a then cmpMana (manaKey b) (manaKey a)
    else defaultSort a b
  | SortKey.nameAsc =>
    if cmpVal (nameKey a) (nameKey b) ≠ Ordering.eq then cmpVal (nameKey a) (nameKey b)
    else defaultSort a b
  | SortKey.nameDesc =>
    if cmpVal (nameKey b) (nameKey a) ≠ Ordering.eq then cmpVal (nameKey b) (nameKey a)
    else defaultSort a b
  | SortKey.default => defaultSort a b

/-- Insert `x` before the first element `y` of an already sorted list
with `le x y`. -/
def insertSorted {α : Type} (le : α → α → Bool) (x : α) : List α → List α
  | [] => [x]
  | y :: ys => if le x y then x :: y :: ys else y :: insertSorted le x ys

/-- Stable insertion sort: the model of `Array.prototype.sort`, which is
specified to produce a stable ordering consistent with the comparator. -/
def sortWith {α : Type} (le : α → α → Bool) : List α → List α
  | [] => []
  | x :: xs => insertSorted le x (sortWith le xs)

/-- Embedding of `getSortedCards` (lines 654-698): stable sort of the filtered list
by `compareCards`; an element goes before another when the comparator is
not positive. -/
def getSortedCards (sortBy : SortKey) (filteredCards : List Card) : List Card :=
  sortWith (fun a b => compareCards sortBy a b ≠ Ordering.gt) filteredCards

/-- Embedding of `(card.rating || 0)` (lines 708 and 717). -/
def ratingOrZero (card : Card) : ℚ := card.rating.getD 0

/-- Embedding of `Math.floor(card.rating || 0).toString()` (line 708), modelled as
the integer itself: `Number.prototype.toString` is injective on the
integers, and the bucket keys `'0'..'5'` correspond to 0..5. -/
def tierKeyOf (card : Card) : ℤ := Int.floor (ratingOrZero card)

/-- The tier object `{'5': [], '4': [], '3': [], '2': [], '1': [], '0':
[]}` of `getTieredCards`. -/
structure Tiers where
  t5 : List Card
  t4 : List Card
  t3 : List Card
  t2 : List Card
  t1 : List Card
  t0 : List Card
deriving DecidableEq

def emptyTiers : Tiers := Tiers.mk [] [] [] [] [] []

/-- One step of the `forEach` of `getTieredCards` (lines 707-714): push
the card onto `tiers[tierKey]` when that key exists, otherwise onto
`tiers['0']`. -/
def pushTier (t : Tiers) (card : Card) : Tiers :=
  let key := tierKeyOf card
  if key = 5 then Tiers.mk (t.t5 ++ [card]) t.t4 t.t3 t.t2 t.t1 t.t0
  else if key = 4 then Tiers.mk t.t5 (t.t4 ++ [card]) t.t3 t.t2 t.t1 t.t0
  else if key = 3 then Tiers.mk t.t5 t.t4 (t.t3 ++ [card]) t.t2 t.t1 t.t0
  else if key = 2 then Tiers.mk t.t5 t.t4 t.t3 (t.t2 ++ [card]) t.t1 t.t0
  else if key = 1 then Tiers.mk t.t5 t.t4 t.t3 t.t2 (t.t1 ++ [card]) t.t0
  else Tiers.mk t.t5 t.t4 t.t3 t.t2 t.t1 (t.t0 ++ [card])

/-- The per-tier sort `(a, b) => (a.rating || 0) - (b.rating || 0)`
(line 717). -/
def sortTier (l : List Card) : List Card :=
  sortWith (fun a b => cmpVal (ratingOrZero a) (ratingOrZero b) ≠ Ordering.gt) l

/-- Embedding of `getTieredCards` (lines 703-721): bucket every card of the (already
filtered and sorted) list by `Math.floor(rating || 0)`, unknown keys
going to bucket `'0'`, then sort each bucket by raw rating ascending. -/
def getTieredCards (cards : List Card) : Tiers :=
  let t := cards.foldl pushTier emptyTiers
  Tiers.mk (sortTier t.t5) (sortTier t.t4) (sortTier t.t3)
    (sortTier t.t2) (sortTier t.t1) (sortTier t.t0)

/-- Clamping step of `handleRatingChange` (lines 485-489): `Math.max(0.0, Math.min(5.0,
newRating))`. -/
def clampRating (newRating : ℚ) : ℚ := max 0 (min 5 newRating)

/-- Rounding step of `handleRatingChange` (lines 485-489): the stored rating is
`Math.round(clamped * 10) / 10`; `Math.round` is `⌊x + 1/2⌋`, which is
Mathlib's `round` on ℚ. -/
def storedRating (newRating : ℚ) : ℚ :=
  ((round (clampRating newRating * 10) : ℤ) : ℚ) / 10

/-- Validation step of `handleManaCostChange` (lines 492-496): the argument stands for the
result of `parseInt(newManaCost)` with `none` for `NaN`; a `NaN` or
negative parse stores `null`, any other integer is stored as is. -/
def validateManaCost : Option ℤ → Option ℤ
  | none => none
  | some n => if n < 0 then none else some n

/-- Toggle computation of `handleToggleCustomAttribute` (lines 527-545): remove the attribute
id when present, append it otherwise. -/
def toggleAttr (currentAttributes : List String) (attributeId : String) : List String :=
  if currentAttributes.contains attributeId then
    currentAttributes.filter (fun i => i ≠ attributeId)
  else currentAttributes ++ [attributeId]

/-- The card update performed by `handleToggleCustomAttribute`:
`customAttributeIds` becomes `toggleAttr (card.customAttributeIds || [])
attributeId`. -/
def applyToggle (card : Card) (attributeId : String) : Card :=
  Card.mk card.id card.name card.color card.rarity card.type card.rating
    card.manaCost card.isBomb
    (some (toggleAttr (card.customAttributeIds.getD []) attributeId))
    card.comment card.setId

/-! ## Concrete cards and auxiliary definitions used by the theorems -/

/-- Concatenation of the six tier buckets, in key order 5 down to 0. -/
def concatTiers (t : Tiers) : List Card :=
  t.t5 ++ t.t4 ++ t.t3 ++ t.t2 ++ t.t1 ++ t.t0

/-- A card with every optional field absent and blank strings; the other
concrete cards below override single fields of it. -/
def blankCard : Card :=
  { id := "", name := none, color := ColorField.undef, rarity := "", type := "",
    rating := none, manaCost := none, isBomb := false, customAttributeIds := none,
    comment := "", setId := none }

/-- A card with a set mana cost of 1, for C1. -/
def cSetMana : Card := { blankCard with id := "set", manaCost := some 1 }

/-- A card without a mana cost, for C1. -/
def cUnsetMana : Card := { blankCard with id := "unset" }

/-- Card A of the C3 scenario: rating 4.5, mana cost 2. -/
def cardA : Card := { blankCard with id := "A", rating := some (4.5 : ℚ), manaCost := some 2 }

/-- Card B of the C3 scenario: rating 4.5, mana cost 1. -/
def cardB : Card := { blankCard with id := "B", rating := some (4.5 : ℚ), manaCost := some 1 }

/-- Card C of the C3 scenario: rating 2.0, mana cost 1. -/
def cardC : Card := { blankCard with id := "C", rating := some (2.0 : ℚ), manaCost := some 1 }

/-- Card with rating 3 and mana cost 1, the C4 witness pair's first card. -/
def w4low : Card := { blankCard with id := "w4low", rating := some 3, manaCost := some 1 }

/-- Card with rating 3 and mana cost 2, the C4 witness pair's second card. -/
def w4high : Card := { blankCard with id := "w4high", rating := some 3, manaCost := some 2 }

/-- Card with rating 5.2, the C2 counterexample card. -/
def cRating52 : Card := { blankCard with id := "r52", rating := some (5.2 : ℚ) }

/-- Card with rating 3.7, for the C2 witness. -/
def cRating37 : Card := { blankCard with id := "r37", rating := some (3.7 : ℚ) }

/-- Card with rating 6.2, for the C2 witness. -/
def cRating62 : Card := { blankCard with id := "r62", rating := some (6.2 : ℚ) }

/-- A mono-red card, for the C5 witness. -/
def cMonoRed : Card := { blankCard with id := "w5", color := ColorField.list ["赤"] }

/-- A card with an empty color list, for the C6 witness. -/
def cNoColor : Card := { blankCard with id := "w6", color := ColorField.list [] }

/-- An attribute id, for the C10 witness. -/
def attrFlying : String := "flying"

/-- A second attribute id, for the C10 witness. -/
def attrOther : String := "other"

/-- A card carrying only the second attribute id, for the C10 witness. -/
def cWithOther : Card := { blankCard with id := "w10", customAttributeIds := some [attrOther] }

/-- The filter criteria with only the multicolor color selected. -/
def filtersMulticolor : Filters :=
  { colors := [multicolorToken], rarities := [], types := [], isBomb := false,
    customAttributeIds := [], searchTerm := "" }

/-- The filter criteria with only the red color selected. -/
def filtersRed : Filters :=
  { colors := ["赤"], rarities := [], types := [], isBomb := false,
    customAttributeIds := [], searchTerm := "" }

/-- The filter criteria with the red and multicolor colors selected. -/
def filtersRedMulticolor : Filters :=
  { colors := ["赤", multicolorToken], rarities := [], types := [], isBomb := false,
    customAttributeIds := [], searchTerm := "" }

/-- The filter criteria with every criterion empty or off. -/
def filtersEmpty : Filters :=
  { colors := [], rarities := [], types := [], isBomb := false,
    customAttributeIds := [], searchTerm := "" }

/-! ## Helper lemmas -/

theorem insertSorted_perm {α : Type} (le : α → α → Bool) (x : α) (l : List α) :
    (insertSorted le x l).Perm (x :: l) := by
  induction l with
  | nil => simp [insertSorted]
  | cons y ys ih =>
    simp only [insertSorted]
    by_cases h : le x y = true
    · simp [h]
    · simp only [h, if_false]
      exact ((ih.cons y).trans (List.Perm.swap x y ys)).symm.symm

theorem sortWith_perm {α : Type} (le : α → α → Bool) (l : List α) :
    (sortWith le l).Perm l := by
  induction l with
  | nil => simp [sortWith]
  | cons x xs ih =>
    exact (insertSorted_perm le x (sortWith le xs)).trans (ih.cons x)

theorem sortWith_pair {α : Type} (le : α → α → Bool) (a b : α) :
    sortWith le [a, b] = if le a b then [a, b] else [b, a] := by
  by_cases h : le a b = true <;> simp [sortWith, insertSorted, h]

/-! ## C7: empty criteria filter is the identity -/

/-- C7: with no active set and every filter criterion empty or off, the
filter predicate accepts every card. -/
theorem c7_identity_filter (card : Card) :
    matchesFilter none (Filters.mk [] [] [] false [] "") card = true := by
  simp [matchesFilter]

/-! ## C5: OR semantics of the color gate -/

/-- C5: a mono-red card (color list exactly red) is rejected by the
multicolor-only filter, accepted by the red filter, and accepted by the
red-plus-multicolor filter, all other criteria inactive: the two
sub-checks of the color gate are joined by OR, not AND. -/
theorem c5_color_gate_or (card : Card) (h : card.color = ColorField.list ["赤"]) :
    matchesFilter none (Filters.mk ["多色"] [] [] false [] "") card = false ∧
    matchesFilter none (Filters.mk ["赤"] [] [] false [] "") card = true ∧
    matchesFilter none (Filters.mk ["赤", "多色"] [] [] false [] "") card = true := by
  refine ⟨?_, ?_, ?_⟩ <;>
    simp [matchesFilter, colorMatch, cardColorsOf, multicolorToken, h] <;> decide

/-- Witness for C5 at a concrete mono-red card. -/
theorem c5_color_gate_or_witness :
    matchesFilter none (Filters.mk ["多色"] [] [] false [] "") cMonoRed = false ∧
    matchesFilter none (Filters.mk ["赤"] [] [] false [] "") cMonoRed = true ∧
    matchesFilter none (Filters.mk ["赤", "多色"] [] [] false [] "") cMonoRed = true :=
  c5_color_gate_or cMonoRed rfl

/-! ## C6: colorless or color-free cards fail every active color filter -/

/-- C6: a card whose color field is the empty list or absent is rejected
whenever the color criterion is non-empty, whatever the other criteria
and the active set are. -/
theorem c6_empty_color_rejected (card : Card) (currentSetId : Option String)
    (filters : Filters)
    (h : card.color = ColorField.list [] ∨ card.color = ColorField.undef)
    (hne : filters.colors ≠ []) :
    matchesFilter currentSetId filters card = false := by
  have hcm : colorMatch filters card = false := by
    cases h with
    | inl h => simp [colorMatch, cardColorsOf, h]
    | inr h => simp [colorMatch, cardColorsOf, h]
  have hlen : 0 < filters.colors.length := List.length_pos.mpr hne
  simp [matchesFilter, hcm, hlen]

/-- Witness for C6 at a concrete colorless card and red color filter. -/
theorem c6_empty_color_rejected_witness :
    matchesFilter none (Filters.mk ["赤"] [] [] false [] "") cNoColor = false :=
  c6_empty_color_rejected cNoColor
    none (Filters.mk ["赤"] [] [] false [] "") (Or.inl rfl) (by decide)

/-! ## C1: placement of a missing mana cost under the two mana sort keys -/

/-- C1 counterexample: under `manaCost-desc` the comparator returns
`manaB - manaA` with the missing cost replaced by `Infinity`, so the
card with the unset mana cost comes out first, not last, from either
input order. -/
theorem c1_counterexample :
    getSortedCards SortKey.manaCostDesc [cSetMana, cUnsetMana] = [cUnsetMana, cSetMana] ∧
    getSortedCards SortKey.manaCostDesc [cUnsetMana, cSetMana] = [cUnsetMana, cSetMana] ∧
    cUnsetMana.manaCost = none ∧ cSetMana.manaCost = some 1 := by
  refine ⟨?_, ?_, rfl, rfl⟩ <;>
    simp [getSortedCards, sortWith, insertSorted, compareCards, cmpMana, manaKey,
      cSetMana, cUnsetMana, blankCard]

/-- C1 amended: for any pair of cards of which one has no mana cost and
the other a set one, the unset card comes last under `manaCost-asc`, but
comes first under `manaCost-desc` (the `Infinity` sentinel is largest in
both directions, and `manaCost-desc` puts the largest first). -/
theorem c1_amended_missing_mana_placement (a b : Card) (m : ℤ)
    (ha : a.manaCost = none) (hb : b.manaCost = some m) :
    (getSortedCards SortKey.manaCostAsc [a, b] = [b, a] ∧
      getSortedCards SortKey.manaCostAsc [b, a] = [b, a]) ∧
    (getSortedCards SortKey.manaCostDesc [a, b] = [a, b] ∧
      getSortedCards SortKey.manaCostDesc [b, a] = [a, b]) := by
  refine ⟨⟨?_, ?_⟩, ⟨?_, ?_⟩⟩ <;>
    simp [getSortedCards, sortWith, insertSorted, compareCards, cmpMana, manaKey, ha, hb]

/-- Witness for the amended C1 at a concrete pair of cards. -/
theorem c1_amended_missing_mana_placement_witness :
    (getSortedCards SortKey.manaCostAsc [cUnsetMana, cSetMana] = [cSetMana, cUnsetMana] ∧
      getSortedCards SortKey.manaCostAsc [cSetMana, cUnsetMana] = [cSetMana, cUnsetMana]) ∧
    (getSortedCards SortKey.manaCostDesc [cUnsetMana, cSetMana] = [cUnsetMana, cSetMana] ∧
      getSortedCards SortKey.manaCostDesc [cSetMana, cUnsetMana] = [cUnsetMana, cSetMana]) :=
  c1_amended_missing_mana_placement cUnsetMana cSetMana 1 rfl rfl

/-! ## C3: end-to-end default sort scenario -/

/-- C3: any list holding exactly the cards A, B and C sorts to
[B, C, A] under the default key: mana cost ascending puts A (cost 2)
last, and rating descending breaks the B/C tie at cost 1. -/
theorem c3_default_scenario (l : List Card) (h : l.Perm [cardA, cardB, cardC]) :
    getSortedCards SortKey.default l = [cardB, cardC, cardA] := by
  have hAB : cardA ≠ cardB := fun hh => absurd (congrArg Card.id hh) (by decide)
  have hAC : cardA ≠ cardC := fun hh => absurd (congrArg Card.id hh) (by decide)
  have hBC : cardB ≠ cardC := fun hh => absurd (congrArg Card.id hh) (by decide)
  have hBA : cardB ≠ cardA := fun hh => hAB hh.symm
  have hCA : cardC ≠ cardA := fun hh => hAC hh.symm
  have hCB : cardC ≠ cardB := fun hh => hBC hh.symm
  have hlen : l.length = 3 := by simpa using h.length_eq
  rcases l with _ | ⟨x, _ | ⟨y, _ | ⟨z, _ | ⟨w, t⟩⟩⟩⟩
  · simp at hlen
  · simp at hlen
  · simp at hlen
  · rw [List.cons_perm_iff_perm_erase] at h
    obtain ⟨hx, h⟩ := h
    simp only [List.mem_cons, List.not_mem_nil, or_false] at hx
    rcases hx with rfl | rfl | rfl
    · rw [List.erase_cons_head, List.cons_perm_iff_perm_erase] at h
      obtain ⟨hy, h⟩ := h
      simp only [List.mem_cons, List.not_mem_nil, or_false] at hy
      rcases hy with rfl | rfl
      · rw [List.erase_cons_head] at h
        obtain rfl := List.cons_eq_cons.mp (List.perm_singleton.mp h) |>.1
        norm_num [getSortedCards, sortWith, insertSorted, compareCards, defaultSort,
          cmpVal, cmpMana, manaKey, ratingKey, colorsLength, cardA, cardB, cardC, blankCard]
        all_goals decide
      · have e : [cardB, cardC].erase cardC = [cardB] := by
          simp [List.erase_cons, hAB, hAC, hBC, hBA, hCA, hCB]
        rw [e] at h
        obtain rfl := List.cons_eq_cons.mp (List.perm_singleton.mp h) |>.1
        norm_num [getSortedCards, sortWith, insertSorted, compareCards, defaultSort,
          cmpVal, cmpMana, manaKey, ratingKey, colorsLength, cardA, cardB, cardC, blankCard]
        all_goals decide
    · have e : [cardA, cardB, cardC].erase cardB = [cardA, cardC] := by
        simp [List.erase_cons, hAB, hAC, hBC, hBA, hCA, hCB, List.erase_cons_head]
      rw [e, List.cons_perm_iff_perm_erase] at h
      obtain ⟨hy, h⟩ := h
      simp only [List.mem_cons, List.not_mem_nil, or_false] at hy
      rcases hy with rfl | rfl
      · rw [List.erase_cons_head] at h
        obtain rfl := List.cons_eq_cons.mp (List.perm_singleton.mp h) |>.1
        norm_num [getSortedCards, sortWith, insertSorted, compareCards, defaultSort,
          cmpVal, cmpMana, manaKey, ratingKey, colorsLength, cardA, cardB, cardC, blankCard]
        all_goals decide
      · have e2 : [cardA, cardC].erase cardC = [cardA] := by
          simp [List.erase_cons, hAB, hAC, hBC, hBA, hCA, hCB]
        rw [e2] at h
        obtain rfl := List.cons_eq_cons.mp (List.perm_singleton.mp h) |>.1
        norm_num [getSortedCards, sortWith, insertSorted, compareCards, defaultSort,
          cmpVal, cmpMana, manaKey, ratingKey, colorsLength, cardA, cardB, cardC, blankCard]
        all_goals decide
    · have e : [cardA, cardB, cardC].erase cardC = [cardA, cardB] := by
        simp [List.erase_cons, hAB, hAC, hBC, hBA, hCA, hCB]
      rw [e, List.cons_perm_iff_perm_erase] at h
      obtain ⟨hy, h⟩ := h
      simp only [List.mem_cons, List.not_mem_nil, or_false] at hy
      rcases hy with rfl | rfl
      · rw [List.erase_cons_head] at h
        obtain rfl := List.cons_eq_cons.mp (List.perm_singleton.mp h) |>.1
        norm_num [getSortedCards, sortWith, insertSorted, compareCards, defaultSort,
          cmpVal, cmpMana, manaKey, ratingKey, colorsLength, cardA, cardB, cardC, blankCard]
        all_goals decide
      · have e2 : [cardA, cardB].erase cardB = [cardA] := by
          simp [List.erase_cons, hAC, hBC, hBA, hCA, hCB, hAB]
        rw [e2] at h
        obtain rfl := List.cons_eq_cons.mp (List.perm_singleton.mp h) |>.1
        norm_num [getSortedCards, sortWith, insertSorted, compareCards, defaultSort,
          cmpVal, cmpMana, manaKey, ratingKey, colorsLength, cardA, cardB, cardC, blankCard]
        all_goals decide
  · simp at hlen

/-- Witness for C3 at the input order [A, B, C]. -/
theorem c3_default_scenario_witness :
    getSortedCards SortKey.default [cardA, cardB, cardC] = [cardB, cardC, cardA] :=
  c3_default_scenario [cardA, cardB, cardC] (List.Perm.refl _)

/-! ## C4: every non-default mode falls back to the default chain -/

theorem cmpMana_lt_flip {x y : Option ℤ} (h : cmpMana x y = Ordering.lt) :
    cmpMana y x = Ordering.gt ∧ x ≠ y := by
  cases x with
  | none => cases y <;> simp [cmpMana] at h
  | some m =>
    cases y with
    | none => simp [cmpMana]
    | some n =>
      simp only [cmpMana, cmpVal] at h ⊢
      rcases lt_trichotomy m n with hlt | heq | hgt
      · have : ¬n < m := not_lt_of_gt hlt
        simp [this, hlt, ne_of_lt hlt, (ne_of_lt hlt).symm]
      · simp [heq] at h
      · simp [hgt, not_lt_of_gt hgt] at h

/-- C4: each non-default sort mode applies the default tie-break chain
as soon as its primary criterion ties; in particular, of two cards of
equal rating, with the first card's mana key strictly below the
second's, the first card comes out first under `rating-desc` from
either input order. -/
theorem c4_primary_then_default_chain (a b : Card) :
    (ratingKey b = ratingKey a → compareCards SortKey.ratingDesc a b = defaultSort a b) ∧
    (ratingKey a = ratingKey b → compareCards SortKey.ratingAsc a b = defaultSort a b) ∧
    (manaKey a = manaKey b → compareCards SortKey.manaCostAsc a b = defaultSort a b) ∧
    (manaKey b = manaKey a → compareCards SortKey.manaCostDesc a b = defaultSort a b) ∧
    (cmpVal (nameKey a) (nameKey b) = Ordering.eq →
      compareCards SortKey.nameAsc a b = defaultSort a b) ∧
    (cmpVal (nameKey b) (nameKey a) = Ordering.eq →
      compareCards SortKey.nameDesc a b = defaultSort a b) ∧
    (a.rating = b.rating → cmpMana (manaKey a) (manaKey b) = Ordering.lt →
      getSortedCards SortKey.ratingDesc [a, b] = [a, b] ∧
      getSortedCards SortKey.ratingDesc [b, a] = [a, b]) := by
  refine ⟨?_, ?_, ?_, ?_, ?_, ?_, ?_⟩
  · intro h; simp [compareCards, h]
  · intro h; simp [compareCards, h]
  · intro h; simp [compareCards, h]
  · intro h; simp [compareCards, h]
  · intro h; simp [compareCards, h]
  · intro h; simp [compareCards, h]
  · intro hr hm
    obtain ⟨hflip, hne⟩ := cmpMana_lt_flip hm
    have hk : ratingKey a = ratingKey b := by simp [ratingKey, hr]
    constructor
    · simp [getSortedCards, sortWith, insertSorted, compareCards, defaultSort, hk,
        hm, hne, hne.symm]
    · simp [getSortedCards, sortWith, insertSorted, compareCards, defaultSort, hk.symm,
        hflip, hne, hne.symm]

/-- Witness for C4: under `rating-desc`, the equal-rating pair sorts the
lower mana cost first from both input orders. -/
theorem c4_primary_then_default_chain_witness :
    getSortedCards SortKey.ratingDesc [w4low, w4high] = [w4low, w4high] ∧
    getSortedCards SortKey.ratingDesc [w4high, w4low] = [w4low, w4high] :=
  (c4_primary_then_default_chain w4low w4high).2.2.2.2.2.2 rfl (by decide)

/-! ## C2: tier labels of ratings 3.7 and 5.2 -/

/-- C2 counterexample: `Math.floor(5.2) = 5` and `'5'` is a key of the
tier object, so the rating-5.2 card is placed in bucket "5", with bucket
"0" left empty — the claim's "lands in tier 0" fails. -/
theorem c2_counterexample :
    getTieredCards [cRating52] =
      Tiers.mk [cRating52] [] [] [] [] [] ∧ cRating52.rating = some (5.2 : ℚ) := by
  constructor
  · norm_num [getTieredCards, pushTier, tierKeyOf, ratingOrZero, emptyTiers, sortTier,
      sortWith, insertSorted, cRating52, blankCard]
  · rfl

/-- C2 amended: a card with rating 3.7 lands in bucket "3"; a card with
rating 5.2 lands in bucket "5" (its floor 5 is still a valid key); only
a floor outside 0..5 — e.g. rating 6.2, floor 6 — falls through to
bucket "0", and no card is dropped. -/
theorem c2_amended_tier_labels (u v w : Card) (hu : u.rating = some (3.7 : ℚ))
    (hv : v.rating = some (5.2 : ℚ)) (hw : w.rating = some (6.2 : ℚ)) :
    getTieredCards [u] = Tiers.mk [] [] [u] [] [] [] ∧
    getTieredCards [v] = Tiers.mk [v] [] [] [] [] [] ∧
    getTieredCards [w] = Tiers.mk [] [] [] [] [] [w] := by
  refine ⟨?_, ?_, ?_⟩ <;>
    norm_num [getTieredCards, pushTier, tierKeyOf, ratingOrZero, emptyTiers, sortTier,
      sortWith, insertSorted, hu, hv, hw]

/-- Witness for the amended C2 at three concrete cards. -/
theorem c2_amended_tier_labels_witness :
    getTieredCards [cRating37] = Tiers.mk [] [] [cRating37] [] [] [] ∧
    getTieredCards [cRating52] = Tiers.mk [cRating52] [] [] [] [] [] ∧
    getTieredCards [cRating62] = Tiers.mk [] [] [] [] [] [cRating62] :=
  c2_amended_tier_labels cRating37 cRating52 cRating62 rfl rfl rfl

/-! ## C9: the tier grouper partitions its input -/

theorem concatTiers_pushTier (t : Tiers) (card : Card) :
    (concatTiers (pushTier t card)).Perm (concatTiers t ++ [card]) := by
  rw [List.perm_iff_count]
  intro x
  simp only [concatTiers, pushTier]
  split_ifs <;> by_cases hxc : x = card <;>
    simp [List.count_append, List.count_cons, hxc] <;> omega

theorem foldl_pushTier_perm (l : List Card) (t : Tiers) :
    (concatTiers (List.foldl pushTier t l)).Perm (concatTiers t ++ l) := by
  induction l generalizing t with
  | nil => simp
  | cons c cs ih =>
    have h1 : (concatTiers (List.foldl pushTier (pushTier t c) cs)).Perm
        (concatTiers (pushTier t c) ++ cs) := ih (pushTier t c)
    have h2 : (concatTiers (pushTier t c) ++ cs).Perm ((concatTiers t ++ [c]) ++ cs) :=
      (concatTiers_pushTier t c).append_right cs
    have h3 : (concatTiers t ++ [c]) ++ cs = concatTiers t ++ (c :: cs) := by simp
    simpa [h3] using (h1.trans h2)

/-- C9: the tier grouper partitions its input: the six buckets together
hold exactly the input cards (as a multiset, so nothing is dropped,
duplicated, or put in two buckets). -/
theorem c9_tier_partition (l : List Card) :
    (concatTiers (getTieredCards l)).Perm l := by
  have hs : ∀ u : List Card, (sortTier u).Perm u := fun u => sortWith_perm _ u
  have h1 : (concatTiers (getTieredCards l)).Perm
      (concatTiers (List.foldl pushTier emptyTiers l)) := by
    simp only [getTieredCards, concatTiers]
    exact (((((hs _).append (hs _)).append (hs _)).append (hs _)).append (hs _)).append (hs _)
  have h2 := foldl_pushTier_perm l emptyTiers
  have h3 : concatTiers emptyTiers ++ l = l := by simp [concatTiers, emptyTiers]
  exact h1.trans (h3 ▸ h2)

/-! ## C8: invalid mutation inputs are normalized, not rejected -/

/-- C8: every numeric rating input is stored clamped to [0, 5] with one
decimal place (a multiple of 1/10 within 1/20 of the clamped input), and
every negative or non-numeric mana cost input is stored as `null`. -/
theorem c8_invalid_inputs_normalized :
    (∀ x : ℚ, 0 ≤ storedRating x ∧ storedRating x ≤ 5 ∧
      (∃ n : ℤ, storedRating x = (n : ℚ) / 10) ∧
      |clampRating x - storedRating x| ≤ 1 / 20) ∧
    (∀ p : Option ℤ, (p = none ∨ ∃ n : ℤ, p = some n ∧ n < 0) →
      validateManaCost p = none) := by
  constructor
  · intro x
    have hc0 : (0:ℚ) ≤ clampRating x := le_max_left 0 _
    have hc5 : clampRating x ≤ 5 := max_le (by norm_num) (min_le_left 5 x)
    have hn0 : (0:ℤ) ≤ round (clampRating x * 10) := by
      rw [round_eq]
      exact Int.le_floor.mpr (by push_cast; linarith)
    have hn50 : round (clampRating x * 10) ≤ 50 := by
      rw [round_eq]
      have h51 : (⌊clampRating x * 10 + 1/2⌋ : ℤ) < 51 :=
        Int.floor_lt.mpr (by push_cast; linarith)
      omega
    refine ⟨?_, ?_, ⟨round (clampRating x * 10), rfl⟩, ?_⟩
    · exact div_nonneg (by exact_mod_cast hn0) (by norm_num)
    · rw [storedRating, div_le_iff₀ (by norm_num : (0:ℚ) < 10)]
      have : ((round (clampRating x * 10) : ℤ) : ℚ) ≤ 50 := by exact_mod_cast hn50
      linarith
    · have habs := abs_sub_round (clampRating x * 10)
      have hrw : clampRating x - storedRating x =
          (clampRating x * 10 - (round (clampRating x * 10) : ℤ)) / 10 := by
        rw [storedRating]; ring
      rw [hrw, abs_div]
      have h10 : |(10:ℚ)| = 10 := by norm_num
      rw [h10]
      linarith
  · intro p hp
    rcases hp with rfl | ⟨n, rfl, hn⟩
    · rfl
    · simp [validateManaCost, hn]

/-- Witness for C8 at the concrete negative mana cost input -3. -/
theorem c8_invalid_inputs_normalized_witness :
    validateManaCost (some (-3)) = none :=
  c8_invalid_inputs_normalized.2 (some (-3)) (Or.inr ⟨-3, rfl, by decide⟩)

/-! ## C10: toggling a custom attribute is a set-level involution -/

theorem mem_toggleAttr (l : List String) (a x : String) :
    x ∈ toggleAttr l a ↔ (if x = a then a ∉ l else x ∈ l) := by
  unfold toggleAttr
  by_cases hmem : a ∈ l <;> by_cases hx : x = a <;>
    simp [hmem, hx, List.mem_filter]

/-- C10: applying the attribute toggle twice preserves membership of
every id; one application flips membership of exactly the toggled id
and leaves every other id unchanged. -/
theorem c10_toggle_attribute_involution (card : Card) (attributeId x : String) :
    (x ∈ (applyToggle (applyToggle card attributeId) attributeId).customAttributeIds.getD [] ↔
      x ∈ card.customAttributeIds.getD []) ∧
    (attributeId ∈ (applyToggle card attributeId).customAttributeIds.getD [] ↔
      attributeId ∉ card.customAttributeIds.getD []) ∧
    (x ≠ attributeId →
      (x ∈ (applyToggle card attributeId).customAttributeIds.getD [] ↔
        x ∈ card.customAttributeIds.getD [])) := by
  refine ⟨?_, ?_, ?_⟩
  · by_cases hx : x = attributeId <;>
      simp [applyToggle, mem_toggleAttr, hx]
  · simp [applyToggle, mem_toggleAttr]
  · intro hx
    simp [applyToggle, mem_toggleAttr, hx]

/-- Witness for C10 at a concrete card and attribute ids. -/
theorem c10_toggle_attribute_involution_witness :
    (attrOther ∈ (applyToggle cWithOther attrFlying).customAttributeIds.getD [] ↔
      attrOther ∈ cWithOther.customAttributeIds.getD []) :=
  (c10_toggle_attribute_involution cWithOther attrFlying attrOther).2.2 (by decide)
